import Mathlib

/-!
# Verification of the travel-destination recommender core

A shallow embedding of the Go services of `shuv1824/travel-destination-recommender`:
the district ranking (`rankDistricts`), the TTL cache with its single-flight
`updating` flag (`CachedWeatherService`), the advisory travel service
(`TravelService.GetRecommendation`) and the 2 PM hourly-series reductions of
both providers.  `float64` values are modelled as rationals, Go slices as
lists, and a Go `panic` as `Option.none`.
-/

namespace Recommender

/-! ## Rounding: Go `math.Round(x*100)/100` -/

/-- Go `math.Round`: round half away from zero, yielding an integer. -/
def mathRound (x : ℚ) : ℤ :=
  if 0 ≤ x then ⌊x + 1 / 2⌋ else -⌊-x + 1 / 2⌋

/-- `math.Round(x*100)/100`: round to two decimal places. -/
def round2 (x : ℚ) : ℚ := (mathRound (x * 100) : ℚ) / 100

theorem mathRound_intCast (k : ℤ) : mathRound (k : ℚ) = k := by
  unfold mathRound
  rcases le_or_lt 0 (k : ℚ) with h | h
  · rw [if_pos h, add_comm, Int.floor_add_int]
    norm_num
  · rw [if_neg (not_le.mpr h)]
    have : -(k : ℚ) + 1 / 2 = (1 : ℚ) / 2 + (-k : ℤ) := by push_cast; ring
    rw [this, Int.floor_add_int]
    norm_num

/-- Rounding a value that is already an integer number of hundredths is the
identity. -/
theorem round2_hundredths (m : ℤ) : round2 ((m : ℚ) / 100) = (m : ℚ) / 100 := by
  unfold round2
  rw [div_mul_cancel₀ _ (by norm_num : (100 : ℚ) ≠ 0), mathRound_intCast]

/-- Every `round2` output is an integer number of hundredths. -/
theorem round2_eq_hundredths (x : ℚ) : ∃ m : ℤ, round2 x = (m : ℚ) / 100 :=
  ⟨mathRound (x * 100), rfl⟩

/-- Evaluation helper: a value whose hundredfold is an integer rounds to
itself. -/
theorem round2_of_mul_eq (a : ℚ) (m : ℤ) (h : a * 100 = (m : ℚ)) : round2 a = a := by
  unfold round2
  rw [h, mathRound_intCast, ← h]
  field_simp

/-- On values that are integer numbers of hundredths, the rounded difference is
positive exactly when the first value is strictly larger. -/
theorem round2_sub_pos {a b : ℚ} {m n : ℤ}
    (ha : a = (m : ℚ) / 100) (hb : b = (n : ℚ) / 100) :
    0 < round2 (a - b) ↔ b < a := by
  subst ha hb
  have hsub : (m : ℚ) / 100 - (n : ℚ) / 100 = ((m - n : ℤ) : ℚ) / 100 := by
    push_cast; ring
  rw [hsub, round2_hundredths]
  push_cast
  constructor <;> intro h <;> linarith

/-! ## District weather records and the ranker -/

/-- `types.DistrictWeather` (internal/types): the composite record ranked by
the weather service. -/
structure DistrictWeather where
  id         : String
  name       : String
  avgTemp2PM : ℚ
  avgPM25    : ℚ
  rank       : ℤ
deriving DecidableEq, Repr

/-- The `sort.Slice` comparator of `rankDistricts`: temperature ascending,
ties broken by PM2.5 ascending. -/
def lessDW (a b : DistrictWeather) : Prop :=
  if a.avgTemp2PM ≠ b.avgTemp2PM then a.avgTemp2PM < b.avgTemp2PM
  else a.avgPM25 < b.avgPM25

instance : DecidableRel lessDW := fun a b => by unfold lessDW; infer_instance

/-- The reflexive total order in which `sort.Slice` leaves the slice:
`leDW a b ↔ ¬ lessDW b a`. -/
def leDW (a b : DistrictWeather) : Prop :=
  a.avgTemp2PM < b.avgTemp2PM ∨ (a.avgTemp2PM = b.avgTemp2PM ∧ a.avgPM25 ≤ b.avgPM25)

instance : DecidableRel leDW := fun a b => by unfold leDW; infer_instance

theorem leDW_iff_not_lessDW (a b : DistrictWeather) : leDW a b ↔ ¬ lessDW b a := by
  unfold leDW lessDW
  by_cases h : b.avgTemp2PM = a.avgTemp2PM
  · simp [h, le_of_eq, not_lt]
  · simp only [Ne, h, not_false_eq_true, if_pos, not_lt]
    constructor
    · rintro (h1 | ⟨h1, _⟩)
      · exact le_of_lt h1
      · exact absurd h1.symm h
    · intro h1
      exact Or.inl (lt_of_le_of_ne h1 (fun he => h he.symm))

instance : IsTotal DistrictWeather leDW :=
  ⟨fun a b => by
    unfold leDW
    rcases lt_trichotomy a.avgTemp2PM b.avgTemp2PM with h | h | h
    · exact Or.inl (Or.inl h)
    · rcases le_total a.avgPM25 b.avgPM25 with h2 | h2
      · exact Or.inl (Or.inr ⟨h, h2⟩)
      · exact Or.inr (Or.inr ⟨h.symm, h2⟩)
    · exact Or.inr (Or.inl h)⟩

instance : IsTrans DistrictWeather leDW :=
  ⟨fun a b c hab hbc => by
    unfold leDW at *
    rcases hab with h1 | ⟨h1, h1'⟩ <;> rcases hbc with h2 | ⟨h2, h2'⟩
    · exact Or.inl (h1.trans h2)
    · exact Or.inl (h2 ▸ h1)
    · exact Or.inl (h1 ▸ h2)
    · exact Or.inr ⟨h1.trans h2, h1'.trans h2'⟩⟩

/-- Contract of Go's `sort.Slice` (documented as *not* guaranteed stable):
the slice becomes a permutation of the input sorted for the comparator. -/
def SortSliceOK (l out : List DistrictWeather) : Prop :=
  l.Perm out ∧ out.Sorted leDW

instance (l out : List DistrictWeather) : Decidable (SortSliceOK l out) := by
  unfold SortSliceOK List.Sorted; infer_instance

/-- Executable stand-in for the `sort.Slice` call: a comparison sort that
satisfies the `SortSliceOK` contract (proved in `sortSliceModel_ok`). -/
def sortSliceModel (l : List DistrictWeather) : List DistrictWeather :=
  l.insertionSort leDW

theorem sortSliceModel_ok (l : List DistrictWeather) : SortSliceOK l (sortSliceModel l) :=
  ⟨(l.perm_insertionSort leDW).symm, l.sorted_insertionSort leDW⟩

/-- The rank-stamping loop `for i := range topTen { topTen[i].Rank = i + 1 }`,
generalised to start at rank `n`. -/
def stampFrom (n : ℤ) : List DistrictWeather → List DistrictWeather
  | [] => []
  | d :: ds => { d with rank := n } :: stampFrom (n + 1) ds

theorem stampFrom_length (n : ℤ) (l : List DistrictWeather) :
    (stampFrom n l).length = l.length := by
  induction l generalizing n with
  | nil => rfl
  | cons d ds ih => simp [stampFrom, ih]

/-- The integer sequence `n, n+1, …` of length `k`. -/
def rankList (n : ℤ) : ℕ → List ℤ
  | 0 => []
  | k + 1 => n :: rankList (n + 1) k

theorem stampFrom_map_rank (l : List DistrictWeather) (n : ℤ) :
    (stampFrom n l).map (fun d => d.rank) = rankList n l.length := by
  induction l generalizing n with
  | nil => rfl
  | cons d ds ih => simp [stampFrom, rankList, ih]

/-- `rankDistricts` (weather service): sort, slice `[:10]`, stamp ranks.
`districts[:10]` panics — modelled as `none` — when the slice holds fewer than
10 records; the empty input returns early. -/
def rankDistricts (districts : List DistrictWeather) : Option (List DistrictWeather) :=
  if districts = [] then some districts
  else
    let sorted := sortSliceModel districts
    if 10 ≤ sorted.length then some (stampFrom 1 (sorted.take 10))
    else none

/-- The sort keys of a record: average 2 PM temperature and average PM2.5. -/
def key (d : DistrictWeather) : ℚ × ℚ := (d.avgTemp2PM, d.avgPM25)

/-- Lexicographic order on sort keys. -/
def leKey (p q : ℚ × ℚ) : Prop := p.1 < q.1 ∨ (p.1 = q.1 ∧ p.2 ≤ q.2)

theorem leDW_iff_leKey (a b : DistrictWeather) : leDW a b ↔ leKey (key a) (key b) :=
  Iff.rfl

instance : IsAntisymm (ℚ × ℚ) leKey :=
  ⟨fun p q hpq hqp => by
    rcases hpq with h1 | ⟨h1, h1'⟩ <;> rcases hqp with h2 | ⟨h2, h2'⟩
    · exact absurd h2 (lt_asymm h1)
    · exact absurd h1 (h2 ▸ lt_irrefl _)
    · exact absurd h2 (h1 ▸ lt_irrefl _)
    · exact Prod.ext h1 (le_antisymm h1' h2')⟩

theorem mem_stampFrom {x : DistrictWeather} :
    ∀ {l : List DistrictWeather} {n : ℤ}, x ∈ stampFrom n l → ∃ b ∈ l, key x = key b := by
  intro l
  induction l with
  | nil => intro n h; cases h
  | cons d ds ih =>
    intro n h
    rcases List.mem_cons.mp h with h | h
    · exact ⟨d, List.mem_cons_self d ds, by rw [h]; rfl⟩
    · obtain ⟨b, hb, hk⟩ := ih h
      exact ⟨b, List.mem_cons_of_mem d hb, hk⟩

theorem stampFrom_sorted {l : List DistrictWeather} (h : l.Sorted leDW) (n : ℤ) :
    (stampFrom n l).Sorted leDW := by
  induction l generalizing n with
  | nil => exact List.sorted_nil
  | cons d ds ih =>
    rw [List.sorted_cons] at h
    rw [stampFrom, List.sorted_cons]
    refine ⟨fun b hb => ?_, ih h.2 (n + 1)⟩
    obtain ⟨b', hb', hkey⟩ := mem_stampFrom hb
    have := h.1 b' hb'
    rw [leDW_iff_leKey] at this ⊢
    rw [hkey]
    exact this

theorem sortSliceModel_length (l : List DistrictWeather) :
    (sortSliceModel l).length = l.length :=
  (l.perm_insertionSort leDW).length_eq

/-! ## Claims C1 and C2: totality and shape of the ranker

`rankDistricts` guards only against the empty slice before taking
`districts[:10]`, so a non-empty input of fewer than 10 records hits a
slice-bounds panic instead of being returned ranked `1..k`. -/

/-- C1 counterexample: one single composite record makes `rankDistricts`
panic (`districts[:10]` with a slice of length 1); it does not return the
record ranked 1. -/
theorem rankDistricts_one_record_panics :
    rankDistricts [⟨"1", "District 1", 25, 50, 0⟩] = none := by decide

/-- C1 (amended): `rankDistricts` returns the empty list on the empty input,
panics on every non-empty input of fewer than 10 records, and on inputs of at
least 10 records returns exactly 10 records ranked 1..10. -/
theorem rankDistricts_totality :
    rankDistricts [] = some [] ∧
    (∀ l : List DistrictWeather, l ≠ [] → l.length < 10 → rankDistricts l = none) ∧
    (∀ l : List DistrictWeather, 10 ≤ l.length →
      ∃ out, rankDistricts l = some out ∧ out.length = 10 ∧
        out.map (fun d => d.rank) = [1, 2, 3, 4, 5, 6, 7, 8, 9, 10]) := by
  refine ⟨rfl, ?_, ?_⟩
  · intro l hne hlen
    unfold rankDistricts
    rw [if_neg hne, if_neg]
    rw [sortSliceModel_length]
    omega
  · intro l hlen
    have hne : l ≠ [] := by
      intro h; rw [h] at hlen; simp at hlen
    have hslen : 10 ≤ (sortSliceModel l).length := by rw [sortSliceModel_length]; exact hlen
    refine ⟨stampFrom 1 ((sortSliceModel l).take 10), ?_, ?_, ?_⟩
    · unfold rankDistricts
      rw [if_neg hne, if_pos hslen]
    · rw [stampFrom_length, List.length_take]
      omega
    · have htake : ((sortSliceModel l).take 10).length = 10 := by
        rw [List.length_take]; omega
      rw [stampFrom_map_rank, htake]
      decide

/-- A concrete batch of ten records (the first ranking test of
service_test.go). -/
def tenRecords : List DistrictWeather :=
  [⟨"1", "District 1", 35, 50, 0⟩, ⟨"2", "District 2", 25, 50, 0⟩,
   ⟨"3", "District 3", 30, 50, 0⟩, ⟨"4", "District 4", 28, 50, 0⟩,
   ⟨"5", "District 5", 32, 50, 0⟩, ⟨"6", "District 6", 26, 50, 0⟩,
   ⟨"7", "District 7", 29, 50, 0⟩, ⟨"8", "District 8", 27, 50, 0⟩,
   ⟨"9", "District 9", 31, 50, 0⟩, ⟨"10", "District 10", 33, 50, 0⟩]

/-- C1 witness: the amended theorem applied to a concrete two-record input
(panic) and to the concrete ten-record input (ten ranked records). -/
theorem rankDistricts_totality_witness :
    rankDistricts [⟨"1", "A", 20, 10, 0⟩, ⟨"2", "B", 21, 10, 0⟩] = none ∧
    ∃ out, rankDistricts tenRecords = some out ∧ out.length = 10 ∧
      out.map (fun d => d.rank) = [1, 2, 3, 4, 5, 6, 7, 8, 9, 10] :=
  ⟨rankDistricts_totality.2.1 _ (by decide) (by decide),
   rankDistricts_totality.2.2 tenRecords (by decide)⟩

/-- C2 counterexample: the claim quantifies over every non-empty input, but a
non-empty input of two records makes `rankDistricts` panic instead of
producing a ranked output. -/
theorem rankDistricts_two_records_panic :
    rankDistricts [⟨"1", "Cooler", 20, 10, 0⟩, ⟨"2", "Hotter", 30, 40, 0⟩] = none := by
  decide

/-- C2 (amended): for every input of at least 10 records, `rankDistricts`
returns the first 10 records of a `sort.Slice`-contract-satisfying
rearrangement, sorted by ascending temperature with ties broken by ascending
PM2.5, with contiguous ranks 1..10 in output order (at most 10 entries). -/
theorem rankDistricts_sorted_top10 :
    ∀ l : List DistrictWeather, 10 ≤ l.length →
      ∃ sorted out, SortSliceOK l sorted ∧ rankDistricts l = some out ∧
        out = stampFrom 1 (sorted.take 10) ∧ out.Sorted leDW ∧
        out.length ≤ 10 ∧
        out.map (fun d => d.rank) = [1, 2, 3, 4, 5, 6, 7, 8, 9, 10] := by
  intro l hlen
  have hne : l ≠ [] := by
    intro h; rw [h] at hlen; simp at hlen
  have hslen : 10 ≤ (sortSliceModel l).length := by rw [sortSliceModel_length]; exact hlen
  have hsorted : (sortSliceModel l).Sorted leDW := l.sorted_insertionSort leDW
  refine ⟨sortSliceModel l, stampFrom 1 ((sortSliceModel l).take 10),
    sortSliceModel_ok l, ?_, rfl, ?_, ?_, ?_⟩
  · unfold rankDistricts
    rw [if_neg hne, if_pos hslen]
  · exact stampFrom_sorted (hsorted.sublist (List.take_sublist 10 _)) 1
  · rw [stampFrom_length, List.length_take]
    omega
  · have htake : ((sortSliceModel l).take 10).length = 10 := by
      rw [List.length_take]; omega
    rw [stampFrom_map_rank, htake]
    decide

/-- C2 witness: the amended theorem applied to the concrete ten-record batch. -/
theorem rankDistricts_sorted_top10_witness :
    ∃ sorted out, SortSliceOK tenRecords sorted ∧ rankDistricts tenRecords = some out ∧
      out = stampFrom 1 (sorted.take 10) ∧ out.Sorted leDW ∧
      out.length ≤ 10 ∧
      out.map (fun d => d.rank) = [1, 2, 3, 4, 5, 6, 7, 8, 9, 10] :=
  rankDistricts_sorted_top10 tenRecords (by decide)

/-! ## Claim C9: stability of the sort

The ranker calls Go's `sort.Slice`, whose documented contract does not
guarantee stability, and the comparator carries no input-order tie-break, so
records that are equal on both keys may come out in either order. -/

/-- C9 counterexample: two records equal on both sort keys but distinct; the
`sort.Slice` contract admits the output that reverses their input order, so
input order is not a guaranteed tie-break. -/
theorem sortSlice_tie_swap_allowed :
    SortSliceOK [⟨"1", "A", 25, 50, 0⟩, ⟨"2", "B", 25, 50, 0⟩]
      [⟨"2", "B", 25, 50, 0⟩, ⟨"1", "A", 25, 50, 0⟩] ∧
    key ⟨"1", "A", 25, 50, 0⟩ = key ⟨"2", "B", 25, 50, 0⟩ ∧
    ([⟨"2", "B", 25, 50, 0⟩, ⟨"1", "A", 25, 50, 0⟩] :
        List DistrictWeather) ≠ [⟨"1", "A", 25, 50, 0⟩, ⟨"2", "B", 25, 50, 0⟩] := by
  refine ⟨⟨List.Perm.swap _ _ _, ?_⟩, rfl, by decide⟩
  decide

/-- C9 (amended): the sort is deterministic only up to full-key ties — any
two outputs satisfying the `sort.Slice` contract carry the same key sequence
(sorted ascending by temperature then PM2.5), but the order of records equal
on both keys is not pinned down. -/
theorem sortSlice_deterministic_up_to_ties :
    ∀ l out₁ out₂ : List DistrictWeather,
      SortSliceOK l out₁ → SortSliceOK l out₂ → out₁.map key = out₂.map key := by
  intro l out₁ out₂ ⟨hp₁, hs₁⟩ ⟨hp₂, hs₂⟩
  have hperm : (out₁.map key).Perm (out₂.map key) :=
    (hp₁.symm.trans hp₂).map key
  have hkeysorted : ∀ {out : List DistrictWeather}, out.Sorted leDW →
      (out.map key).Sorted leKey := by
    intro out hs
    rw [List.Sorted, List.pairwise_map]
    exact hs.imp (fun h => (leDW_iff_leKey _ _).mp h)
  exact List.eq_of_perm_of_sorted hperm (hkeysorted hs₁) (hkeysorted hs₂)

/-- C9 witness: two contract-satisfying outputs for a concrete tied input
have the same key sequence. -/
theorem sortSlice_deterministic_up_to_ties_witness :
    SortSliceOK [⟨"1", "A", 25, 50, 0⟩, ⟨"2", "B", 25, 50, 0⟩]
      [⟨"1", "A", 25, 50, 0⟩, ⟨"2", "B", 25, 50, 0⟩] ∧
    SortSliceOK [⟨"1", "A", 25, 50, 0⟩, ⟨"2", "B", 25, 50, 0⟩]
      [⟨"2", "B", 25, 50, 0⟩, ⟨"1", "A", 25, 50, 0⟩] ∧
    ([⟨"1", "A", 25, 50, 0⟩, ⟨"2", "B", 25, 50, 0⟩] : List DistrictWeather).map key
      = ([⟨"2", "B", 25, 50, 0⟩, ⟨"1", "A", 25, 50, 0⟩] : List DistrictWeather).map key :=
  ⟨⟨List.Perm.refl _, by decide⟩, ⟨List.Perm.swap _ _ _, by decide⟩,
   sortSlice_deterministic_up_to_ties _ _ _
     ⟨List.Perm.refl _, by decide⟩ ⟨List.Perm.swap _ _ _, by decide⟩⟩

/-! ## Claim C3: cache hits return independent copies

The cache-hit paths of `CachedWeatherService.GetTopCoolestAndCleanest` all run
`result := make(...); copy(result, c.cache); return result`.  To make the
copy-vs-reference distinction observable we model slice backing arrays as a
heap of numbered arrays: a hit allocates a fresh array holding the cached
contents and hands out its id, so caller-side writes through that id cannot
reach the cache's own array. -/

/-- A heap of slice backing arrays: `arrays i` is the contents of array `i`;
ids below `next` are the allocated ones. -/
structure Heap where
  arrays : Nat → List DistrictWeather
  next   : Nat

/-- `make` + `copy`: allocate a fresh backing array holding a copy of array
`src` and return its id. -/
def allocCopy (h : Heap) (src : Nat) : Heap × Nat :=
  (⟨fun i => if i = h.next then h.arrays src else h.arrays i, h.next + 1⟩, h.next)

/-- A caller mutating one element of a slice it got back (the mutation done
by the "cache returns copy, not reference" test). -/
def setElem (h : Heap) (r : Nat) (i : ℕ) (v : DistrictWeather) : Heap :=
  ⟨fun j => if j = r then (h.arrays r).set i v else h.arrays j, h.next⟩

/-- The state read by `GetTopCoolestAndCleanest`: the heap, the id of the
`cache` slice (`none` before the first refresh), and whether
`time.Since(lastUpdated) < cacheTTL`. -/
structure CachedState where
  heap     : Heap
  cacheRef : Option Nat
  fresh    : Bool

/-- The cache-hit path of `GetTopCoolestAndCleanest`: with a non-nil fresh
cache entry, return a freshly allocated copy of it; otherwise fall through to
the refresh path (modelled `none` here, out of scope of this read). -/
def getTopHit (s : CachedState) : Option (CachedState × Nat) :=
  match s.cacheRef with
  | some r =>
    if s.fresh then
      let p := allocCopy s.heap r
      some ({ s with heap := p.1 }, p.2)
    else none
  | none => none

/-- C3: two sequential cache-hit reads hand out two distinct fresh arrays,
both distinct from the cache's own array, with the cached contents; mutating
the array returned by either read changes neither the other read's array nor
the cache's array. -/
theorem cache_read_returns_copy
    (A : Nat → List DistrictWeather) (n r : Nat) (hr : r < n) :
    ∃ s₁ r₁ s₂ r₂,
      getTopHit ⟨⟨A, n⟩, some r, true⟩ = some (s₁, r₁) ∧
      getTopHit s₁ = some (s₂, r₂) ∧
      r₁ ≠ r₂ ∧ r₁ ≠ r ∧ r₂ ≠ r ∧
      s₂.heap.arrays r₁ = A r ∧
      s₂.heap.arrays r₂ = A r ∧
      s₂.heap.arrays r = A r ∧
      (∀ i v,
        (setElem s₂.heap r₁ i v).arrays r₂ = A r ∧
        (setElem s₂.heap r₁ i v).arrays r = A r ∧
        (setElem s₂.heap r₂ i v).arrays r₁ = A r ∧
        (setElem s₂.heap r₂ i v).arrays r = A r) := by
  refine ⟨_, n, _, n + 1, rfl, rfl, by omega, by omega, by omega, ?_, ?_, ?_, ?_⟩
  · simp [allocCopy]
  · simp [allocCopy]
  · simp only [allocCopy]
    rw [if_neg (by omega : r ≠ n + 1), if_neg (Nat.ne_of_lt hr)]
  · intro i v
    have h1 : r ≠ n := Nat.ne_of_lt hr
    have h2 : r ≠ n + 1 := by omega
    refine ⟨?_, ?_, ?_, ?_⟩ <;> simp only [allocCopy, setElem] <;> simp [h1, h2]

/-- A record used by concrete cache scenarios (the one of the caching test). -/
def sampleRecord : DistrictWeather := ⟨"1", "Test", 25, 30, 1⟩

/-- C3 witness: the copy independence theorem applied to a concrete one-entry
cache state. -/
theorem cache_read_returns_copy_witness :
    ∃ s₁ r₁ s₂ r₂,
      getTopHit ⟨⟨fun _ => [sampleRecord], 1⟩, some 0, true⟩ = some (s₁, r₁) ∧
      getTopHit s₁ = some (s₂, r₂) ∧
      r₁ ≠ r₂ ∧ r₁ ≠ 0 ∧ r₂ ≠ 0 ∧
      s₂.heap.arrays r₁ = [sampleRecord] ∧
      s₂.heap.arrays r₂ = [sampleRecord] ∧
      s₂.heap.arrays 0 = [sampleRecord] ∧
      (∀ i v,
        (setElem s₂.heap r₁ i v).arrays r₂ = [sampleRecord] ∧
        (setElem s₂.heap r₁ i v).arrays 0 = [sampleRecord] ∧
        (setElem s₂.heap r₂ i v).arrays r₁ = [sampleRecord] ∧
        (setElem s₂.heap r₂ i v).arrays 0 = [sampleRecord]) :=
  cache_read_returns_copy (fun _ => [sampleRecord]) 1 0 (by decide)

/-! ## Claim C4: the single-flight `updating` flag

A two-caller interleaving model of `GetTopCoolestAndCleanest`.  Each
mutex-protected section is one atomic step; the fleet-wide fetch itself is a
separate (long) phase.  The write-lock section is translated line by line
from the source: double-check, `updating` check (which serves the stale entry
only when one exists), fall-through that sets `updating` and fetches. -/

/-- Outcome of one caller's write-lock section. -/
inductive LockOutcome where
  | ret   : List DistrictWeather → LockOutcome
  | fetch : LockOutcome
deriving DecidableEq

/-- The shared, mutex-protected cache fields. -/
structure SharedCache where
  cache    : Option (List DistrictWeather)
  fresh    : Bool
  updating : Bool
deriving DecidableEq

/-- The RLock fast path: serve a copy when a fresh entry exists. -/
def rlockCheck (s : SharedCache) : Option (List DistrictWeather) :=
  match s.cache, s.fresh with
  | some l, true => some l
  | _, _ => none

/-- The write-lock section: double-check freshness; if an update is in
progress and an entry exists, serve the (possibly stale) entry; otherwise —
including when an update is in progress but no entry has ever been cached —
set `updating` and proceed to fetch. -/
def lockedSection (s : SharedCache) : SharedCache × LockOutcome :=
  match s.cache, s.fresh with
  | some l, true => (s, .ret l)
  | _, _ =>
    match s.updating, s.cache with
    | true, some l => (s, .ret l)
    | _, _ => ({ s with updating := true }, .fetch)

/-- Completion of a fleet-wide fetch: `updating` is always cleared; on
success the entry is replaced wholesale and becomes fresh. -/
def fetchUpdate (s : SharedCache) (res : Option (List DistrictWeather)) : SharedCache :=
  match res with
  | some data => ⟨some data, true, false⟩
  | none => { s with updating := false }

/-- Program counter of one caller. -/
inductive CallerPc where
  | start    : CallerPc
  | locked   : CallerPc
  | fetching : CallerPc
  | done     : Option (List DistrictWeather) → CallerPc
deriving DecidableEq

/-- A two-caller configuration. -/
structure Config where
  shared : SharedCache
  pcA : CallerPc
  pcB : CallerPc
deriving DecidableEq

def pcOf (c : Config) (i : Bool) : CallerPc := if i then c.pcB else c.pcA

def setPc (c : Config) (i : Bool) (p : CallerPc) : Config :=
  if i then { c with pcB := p } else { c with pcA := p }

def pcOfOutcome : LockOutcome → CallerPc
  | .ret l => .done (some l)
  | .fetch => .fetching

/-- One interleaving step: either caller advances through the fast path, the
write-lock section, or fetch completion, or the TTL elapses. -/
inductive Step : Config → Config → Prop where
  | fastHit (c : Config) (i : Bool) (l : List DistrictWeather) :
      pcOf c i = .start → rlockCheck c.shared = some l →
      Step c (setPc c i (.done (some l)))
  | fastMiss (c : Config) (i : Bool) :
      pcOf c i = .start → rlockCheck c.shared = none →
      Step c (setPc c i .locked)
  | lockStep (c : Config) (i : Bool) :
      pcOf c i = .locked →
      Step c { setPc c i (pcOfOutcome (lockedSection c.shared).2) with
                 shared := (lockedSection c.shared).1 }
  | fetchStep (c : Config) (i : Bool) (res : Option (List DistrictWeather)) :
      pcOf c i = .fetching →
      Step c { setPc c i (.done res) with shared := fetchUpdate c.shared res }
  | expire (c : Config) :
      Step c { c with shared := { c.shared with fresh := false } }

/-- Number of callers currently running a fleet-wide fetch. -/
def fetchCount (c : Config) : ℕ :=
  (if c.pcA = .fetching then 1 else 0) + (if c.pcB = .fetching then 1 else 0)

/-- The initial configuration: empty cache, no update in flight. -/
def cfg₀ : Config := ⟨⟨none, false, false⟩, .start, .start⟩

/-- The configuration with both callers inside a fleet-wide fetch. -/
def cfgBoth : Config := ⟨⟨none, false, true⟩, .fetching, .fetching⟩

/-- C4 counterexample: from the empty cache, two concurrent callers reach a
configuration with two outstanding fleet-wide fetches — the second caller
enters its write-lock section while `updating` is already true, yet starts a
fetch because no entry has ever been cached. -/
theorem updating_flag_double_fetch :
    Relation.ReflTransGen Step cfg₀ cfgBoth ∧ fetchCount cfgBoth = 2 ∧
    cfgBoth.shared.updating = true := by
  refine ⟨?_, rfl, rfl⟩
  have h1 : Step cfg₀ ⟨⟨none, false, false⟩, .locked, .start⟩ :=
    Step.fastMiss cfg₀ false rfl rfl
  have h2 : Step ⟨⟨none, false, false⟩, .locked, .start⟩
      ⟨⟨none, false, false⟩, .locked, .locked⟩ :=
    Step.fastMiss _ true rfl rfl
  have h3 : Step ⟨⟨none, false, false⟩, .locked, .locked⟩
      ⟨⟨none, false, true⟩, .fetching, .locked⟩ :=
    Step.lockStep _ false rfl
  have h4 : Step ⟨⟨none, false, true⟩, .fetching, .locked⟩ cfgBoth :=
    Step.lockStep _ true rfl
  exact .head h1 (.head h2 (.head h3 (.head h4 .refl)))

/-- C4 (amended): the `updating` flag is single-flight only while an entry
exists — a caller whose write-lock section observes `updating = true` with a
cached entry returns the current (possibly stale) entry and leaves the shared
state untouched (no fetch started); a write-lock section that starts a fetch
while `updating = true` can only do so when no entry has ever been cached. -/
theorem updating_flag_single_flight :
    (∀ (s : SharedCache) (l : List DistrictWeather), s.updating = true →
      s.cache = some l → lockedSection s = (s, .ret l)) ∧
    (∀ s : SharedCache, s.updating = true →
      (lockedSection s).2 = .fetch → s.cache = none) ∧
    (∀ (c : Config) (i : Bool) (l : List DistrictWeather),
      pcOf c i = .locked → c.shared.updating = true → c.shared.cache = some l →
      Step c (setPc c i (.done (some l)))) := by
  have hsec : ∀ (s : SharedCache) (l : List DistrictWeather), s.updating = true →
      s.cache = some l → lockedSection s = (s, .ret l) := by
    intro s l hupd hc
    unfold lockedSection
    rw [hc, hupd]
    cases s.fresh <;> rfl
  refine ⟨hsec, ?_, ?_⟩
  · intro s hupd hfetch
    cases hcache : s.cache with
    | none => rfl
    | some l =>
      rw [hsec s l hupd hcache] at hfetch
      cases hfetch
  · intro c i l hpc hupd hc
    have h := Step.lockStep c i hpc
    rw [hsec c.shared l hupd hc] at h
    cases i
    · exact h
    · exact h

/-- C4 witness: the single-flight theorem applied to a concrete stale cache
with an update in progress, and a concrete configuration whose second caller
is in its write-lock section. -/
theorem updating_flag_single_flight_witness :
    lockedSection ⟨some [sampleRecord], false, true⟩
      = (⟨some [sampleRecord], false, true⟩, .ret [sampleRecord]) ∧
    Step ⟨⟨some [sampleRecord], false, true⟩, .locked, .fetching⟩
      ⟨⟨some [sampleRecord], false, true⟩, .done (some [sampleRecord]), .fetching⟩ :=
  ⟨updating_flag_single_flight.1 _ [sampleRecord] rfl rfl,
   updating_flag_single_flight.2.2 ⟨⟨some [sampleRecord], false, true⟩, .locked, .fetching⟩
     false [sampleRecord] rfl rfl rfl⟩

/-! ## Claim C6: the 2 PM hourly-series reductions

Both providers (temperature and PM2.5) share one reduction shape per mode;
the value arrays are abstracted into one list of rationals.  The fleet-mode
reduction averages every 2 PM sample; the date-scoped advisory reduction
returns out of the scan loop at its first 2 PM sample. -/

/-- The hour test `len(timeStr) >= 13 && timeStr[11:13] == "14"` (byte
indexing on the ASCII timestamps, modelled as character indexing). -/
def is2PM (t : String) : Bool :=
  decide (13 ≤ t.length) && ((t.toList.drop 11).take 2 == ['1', '4'])

/-- The fleet selection loop: walk `times` with its index `i`, append
`vals[i]` for every 2 PM entry whose index is within `vals`; once `vals` is
exhausted nothing more can be appended. -/
def twoPMValues : List String → List ℚ → List ℚ
  | [], _ => []
  | _ :: _, [] => []
  | t :: ts, v :: vs => if is2PM t then v :: twoPMValues ts vs else twoPMValues ts vs

/-- The advisory scan loop: return the first in-range 2 PM sample. -/
def firstTwoPM : List String → List ℚ → Option ℚ
  | [], _ => none
  | _ :: _, [] => none
  | t :: ts, v :: vs => if is2PM t then some v else firstTwoPM ts vs

/-- Spec-side selection: the values of the positionally aligned entries whose
hour-of-day is 14. -/
def specSelect (times : List String) (vals : List ℚ) : List ℚ :=
  ((times.zip vals).filter fun p => is2PM p.1).map Prod.snd

/-- `WeatherService.fetchTemperature` / `fetchAirQuality` reduction (fleet
path of the ranked service): error (`none`) when no 2 PM sample exists,
otherwise the average rounded to 2 decimals. -/
def fleetReduce (times : List String) (vals : List ℚ) : Option ℚ :=
  let temps := twoPMValues times vals
  if temps = [] then none
  else some (round2 (temps.sum / temps.length))

/-- The same fleet reduction in the older `weather.go` iteration: identical
selection and average, but no rounding. -/
def fleetReduceNoRound (times : List String) (vals : List ℚ) : Option ℚ :=
  let temps := twoPMValues times vals
  if temps = [] then none
  else some (temps.sum / temps.length)

/-- `TravelService.fetchTemperature` / `fetchPM25` reduction (advisory,
date-scoped path): the loop returns `math.Round(vals[i]*100)/100` inside its
first matching iteration. -/
def advisoryReduce (times : List String) (vals : List ℚ) : Option ℚ :=
  (firstTwoPM times vals).map round2

/-- The reduction as the spec words it for both modes: select every 2 PM
entry, average the selected values, round to 2 decimal places. -/
def specReduce (times : List String) (vals : List ℚ) : Option ℚ :=
  match specSelect times vals with
  | [] => none
  | sel => some (round2 (sel.sum / sel.length))

theorem twoPMValues_eq_specSelect (times : List String) (vals : List ℚ) :
    twoPMValues times vals = specSelect times vals := by
  induction times generalizing vals with
  | nil => cases vals <;> rfl
  | cons t ts ih =>
    cases vals with
    | nil => rfl
    | cons v vs =>
      unfold twoPMValues specSelect
      rw [List.zip_cons_cons, List.filter_cons]
      by_cases h : is2PM t
      · simp only [h, if_true, List.map_cons]
        rw [ih]
        rfl
      · simp only [h, if_false, Bool.false_eq_true]
        rw [ih]
        rfl

theorem firstTwoPM_eq_head (times : List String) (vals : List ℚ) :
    firstTwoPM times vals = (specSelect times vals).head? := by
  rw [← twoPMValues_eq_specSelect]
  induction times generalizing vals with
  | nil => cases vals <;> rfl
  | cons t ts ih =>
    cases vals with
    | nil => rfl
    | cons v vs =>
      unfold firstTwoPM twoPMValues
      by_cases h : is2PM t
      · simp [h]
      · simp only [h, if_false, Bool.false_eq_true]
        exact ih vs

/-- C6 counterexample: on a series with two 2 PM entries valued 10 and 20,
the date-scoped advisory reduction returns the first value (10), not the
rounded average of all selected entries (15). -/
theorem advisoryReduce_first_not_average :
    advisoryReduce ["2026-01-01T14:00", "2026-01-02T14:00"] [10, 20] = some 10 ∧
    specReduce ["2026-01-01T14:00", "2026-01-02T14:00"] [10, 20] = some 15 ∧
    (some (10 : ℚ) ≠ some (15 : ℚ)) := by
  have h1 : is2PM "2026-01-01T14:00" = true := by decide
  have h2 : is2PM "2026-01-02T14:00" = true := by decide
  have r10 : round2 10 = 10 := round2_of_mul_eq 10 1000 (by norm_num)
  have r15 : round2 15 = 15 := round2_of_mul_eq 15 1500 (by norm_num)
  refine ⟨?_, ?_, by decide⟩
  · simp [advisoryReduce, firstTwoPM, h1, r10]
  · have havg : ((10 : ℚ) + 20) / 2 = 15 := by norm_num
    simp [specReduce, specSelect, h1, h2, havg, r15]

/-- C6 (amended): the fleet reduction selects every 2 PM entry and returns
the rounded average (its older `weather.go` variant returns the unrounded
average); the date-scoped advisory reduction instead returns the first
selected entry rounded to 2 decimals, which agrees with the rounded average
only when exactly one entry is selected. -/
theorem reduce2PM_characterization :
    (∀ times vals, fleetReduce times vals = specReduce times vals) ∧
    (∀ times vals, fleetReduceNoRound times vals
        = match specSelect times vals with
          | [] => none
          | sel => some (sel.sum / sel.length)) ∧
    (∀ times vals, advisoryReduce times vals = (specSelect times vals).head?.map round2) ∧
    (∀ times vals, (specSelect times vals).length = 1 →
      advisoryReduce times vals = specReduce times vals) := by
  refine ⟨?_, ?_, ?_, ?_⟩
  · intro times vals
    unfold fleetReduce specReduce
    rw [twoPMValues_eq_specSelect]
    cases specSelect times vals <;> simp
  · intro times vals
    unfold fleetReduceNoRound
    rw [twoPMValues_eq_specSelect]
    cases specSelect times vals <;> simp
  · intro times vals
    unfold advisoryReduce
    rw [firstTwoPM_eq_head]
  · intro times vals h
    unfold advisoryReduce specReduce
    rw [firstTwoPM_eq_head]
    match hs : specSelect times vals with
    | [] => rw [hs] at h; cases h
    | [a] => simp
    | a :: b :: rest => rw [hs] at h; simp at h

/-- C6 witness: the characterization applied to the concrete two-entry series
and to a concrete single-entry advisory series (one travel date has one 2 PM
sample, where first-match and average coincide). -/
theorem reduce2PM_characterization_witness :
    fleetReduce ["2026-01-01T14:00", "2026-01-02T14:00"] [10, 20]
      = specReduce ["2026-01-01T14:00", "2026-01-02T14:00"] [10, 20] ∧
    advisoryReduce ["2025-12-27T14:00"] [28] = specReduce ["2025-12-27T14:00"] [28] :=
  ⟨reduce2PM_characterization.1 _ _,
   reduce2PM_characterization.2.2.2 ["2025-12-27T14:00"] [28] (by decide)⟩

/-! ## The travel service (claims C5, C8, C10)

`TravelService.GetRecommendation` validates the request (date format, date
window, destination lookup) before the four provider calls, then compares the
two locations.  The provider responses are passed in as the hourly series the
HTTP calls would deliver, so "no network fetch" is expressible as
independence from those arguments.  `time.Now().Truncate(24 * time.Hour)` is
the day index `today`; parsed dates are day indexes on the same scale. -/

/-- `types.District`. -/
structure District where
  id         : String
  divisionId : String
  name       : String
  bnName     : String
  lat        : ℚ
  long       : ℚ
deriving DecidableEq, Repr

/-- `NewTravelService`: `districtMap[d.Name] = d` over the input list — later
entries overwrite earlier ones; `GetRecommendation` looks the destination up
in the resulting map. -/
def buildDistrictMap (districts : List District) : String → Option District :=
  districts.foldl (fun acc d => fun n => if n = d.name then some d else acc n)
    fun _ => none

/-- Gregorian leap-year rule (as in Go's `time` package). -/
def isLeapYear (y : ℤ) : Bool :=
  (y % 4 == 0 && y % 100 != 0) || y % 400 == 0

/-- Days in a month, with the February leap rule. -/
def daysInMonth (y : ℤ) (m : ℕ) : ℕ :=
  if m = 2 then (if isLeapYear y then 29 else 28)
  else if m = 4 ∨ m = 6 ∨ m = 9 ∨ m = 11 then 30
  else 31

/-- Civil day index of a calendar date (days since 1970-01-01); the standard
era/year-of-era computation. -/
def daysFromCivil (y : ℤ) (m d : ℕ) : ℤ :=
  let yy := if m ≤ 2 then y - 1 else y
  let era := yy.fdiv 400
  let yoe := yy - era * 400
  let mp := ((m : ℤ) + 9) % 12
  let doy := (153 * mp + 2).fdiv 5 + (d : ℤ) - 1
  let doe := yoe * 365 + yoe.fdiv 4 - yoe.fdiv 100 + doy
  era * 146097 + doe - 719468

/-- Numeric value of a decimal digit character. -/
def digitVal (c : Char) : Option ℕ :=
  if c.isDigit then some (c.toNat - 48) else none

/-- `time.Parse("2006-01-02", s)`: exactly `YYYY-MM-DD` with zero-padded
fields and a valid calendar date; the result is the civil day index. -/
def parseDate (s : String) : Option ℤ :=
  match s.toList with
  | [y1, y2, y3, y4, s1, m1, m2, s2, d1, d2] =>
    if s1 = '-' ∧ s2 = '-' then
      match digitVal y1, digitVal y2, digitVal y3, digitVal y4,
            digitVal m1, digitVal m2, digitVal d1, digitVal d2 with
      | some a, some b, some c, some d, some e, some f, some g, some h =>
        let y : ℤ := (((a * 10 + b) * 10 + c) * 10 + d : ℕ)
        let mo := e * 10 + f
        let da := g * 10 + h
        if 1 ≤ mo ∧ mo ≤ 12 ∧ 1 ≤ da ∧ da ≤ daysInMonth y mo
        then some (daysFromCivil y mo da)
        else none
      | _, _, _, _, _, _, _, _ => none
    else none
  | _ => none

/-- One provider response body: the positionally aligned hourly arrays. -/
structure Hourly where
  times : List String
  vals  : List ℚ

/-- `types.Location`. -/
structure Location where
  lat  : ℚ
  long : ℚ
  name : String
deriving DecidableEq, Repr

/-- `types.TravelRequest`. -/
structure TravelRequest where
  currentLocation         : Location
  destinationDistrictName : String
  travelDate              : String
deriving DecidableEq, Repr

/-- `types.LocationWeather`. -/
structure LocationWeather where
  name    : String
  temp2PM : ℚ
  pm25    : ℚ
deriving DecidableEq, Repr

/-- `types.TravelRecommendation`. -/
structure TravelRecommendation where
  recommendation     : String
  reason             : String
  travelDate         : String
  currentWeather     : LocationWeather
  destinationWeather : LocationWeather
  tempDifference     : ℚ
  pm25Difference     : ℚ
deriving DecidableEq, Repr

/-- `TravelService.fetchWeatherForDate`: temperature and PM2.5 for one
location; the temperature error takes priority. -/
def fetchWeatherForDate (temp pm : Hourly) : Option (ℚ × ℚ) :=
  match advisoryReduce temp.times temp.vals with
  | none => none
  | some t =>
    match advisoryReduce pm.times pm.vals with
    | none => none
    | some p => some (t, p)

/-- `TravelService.GetRecommendation` over the parsed provider bodies
(`curTemp`/`curPM` for the caller's location, `destTemp`/`destPM` for the
destination), translated clause by clause from the source; the `reason` field
is the source's literal TODO placeholder. -/
def getRecommendation (districts : List District) (today : ℤ) (req : TravelRequest)
    (curTemp curPM destTemp destPM : Hourly) : Except String TravelRecommendation :=
  match parseDate req.travelDate with
  | none => .error "invalid travel date format, use YYYY-MM-DD"
  | some travelDate =>
    if travelDate < today ∨ today + 15 < travelDate then
      .error "travel date must be within the next 15 days"
    else
      match buildDistrictMap districts req.destinationDistrictName with
      | none => .error "destination district not found"
      | some destination =>
        match fetchWeatherForDate curTemp curPM with
        | none => .error "failed to fetch current location weather"
        | some cur =>
          match fetchWeatherForDate destTemp destPM with
          | none => .error "failed to fetch destination weather"
          | some dst =>
            .ok { recommendation :=
                    if dst.2 < cur.2 ∧ dst.1 < cur.1 then "Recommended"
                    else "Not Recommended",
                  reason := "Reason",
                  travelDate := req.travelDate,
                  currentWeather :=
                    ⟨if req.currentLocation.name = "" then "Current Location"
                      else req.currentLocation.name, cur.1, cur.2⟩,
                  destinationWeather := ⟨destination.name, dst.1, dst.2⟩,
                  tempDifference := round2 (cur.1 - dst.1),
                  pm25Difference := round2 (cur.2 - dst.2) }

/-! ### Claim C10: duplicate names resolve to the last occurrence -/

theorem buildDistrictMap_foldl (ds : List District)
    (acc : String → Option District) (n : String) :
    ds.foldl (fun acc d => fun m => if m = d.name then some d else acc m) acc n
      = (ds.reverse.find? fun d => d.name == n).or (acc n) := by
  induction ds generalizing acc with
  | nil => simp
  | cons d ds ih =>
    rw [List.foldl_cons, ih, List.reverse_cons, List.find?_append, Option.or_assoc]
    by_cases h : n = d.name
    · simp [List.find?, h]
    · have hb : (d.name == n) = false := by
        simp only [beq_eq_false_iff_ne]
        exact fun he => h he.symm
      simp [List.find?, hb, h]

/-- C10: the name-keyed district map built by `NewTravelService` resolves a
name to the *last* district with that name in the input list (later entries
overwrite earlier ones); duplicates are never rejected — lookup is total and
deterministic. -/
theorem districtMap_duplicate_last_wins :
    (∀ (districts : List District) (n : String),
        buildDistrictMap districts n
          = districts.reverse.find? fun d => d.name == n) ∧
    (∀ (l₁ l₂ : List District) (d : District), (∀ e ∈ l₂, e.name ≠ d.name) →
        buildDistrictMap (l₁ ++ d :: l₂) d.name = some d) := by
  have h1 : ∀ (districts : List District) (n : String),
      buildDistrictMap districts n
        = districts.reverse.find? fun d => d.name == n := by
    intro ds n
    unfold buildDistrictMap
    rw [buildDistrictMap_foldl]
    cases ds.reverse.find? fun d => d.name == n <;> rfl
  refine ⟨h1, ?_⟩
  intro l₁ l₂ d hne
  rw [h1, List.reverse_append, List.reverse_cons, List.find?_append]
  have h2 : l₂.reverse.find? (fun e => e.name == d.name) = none := by
    rw [List.find?_eq_none]
    intro e he
    simp only [beq_iff_eq]
    exact hne e (List.mem_reverse.mp he)
  rw [List.find?_append, h2]
  simp [List.find?]

/-- C10 witness: two districts named "Dhaka"; lookup returns the second. -/
theorem districtMap_duplicate_last_wins_witness :
    buildDistrictMap [⟨"1", "", "Dhaka", "", 23, 90⟩, ⟨"2", "", "Dhaka", "", 24, 91⟩]
      "Dhaka" = some ⟨"2", "", "Dhaka", "", 24, 91⟩ :=
  districtMap_duplicate_last_wins.2 [⟨"1", "", "Dhaka", "", 23, 90⟩] []
    ⟨"2", "", "Dhaka", "", 24, 91⟩ (by simp)

/-! ### Claim C8: validation short-circuits before any provider call -/

/-- C8: each validation failure — unparsable date, date outside
`[today, today+15]`, unknown destination — yields its validation error, and
the outcome does not depend on the provider responses (no fetch observed). -/
theorem validation_short_circuits :
    (∀ (districts : List District) (today : ℤ) (req : TravelRequest)
        (a b c d a' b' c' d' : Hourly),
      parseDate req.travelDate = none →
        getRecommendation districts today req a b c d
          = .error "invalid travel date format, use YYYY-MM-DD" ∧
        getRecommendation districts today req a b c d
          = getRecommendation districts today req a' b' c' d') ∧
    (∀ (districts : List District) (today : ℤ) (req : TravelRequest)
        (a b c d a' b' c' d' : Hourly) (t : ℤ),
      parseDate req.travelDate = some t → (t < today ∨ today + 15 < t) →
        getRecommendation districts today req a b c d
          = .error "travel date must be within the next 15 days" ∧
        getRecommendation districts today req a b c d
          = getRecommendation districts today req a' b' c' d') ∧
    (∀ (districts : List District) (today : ℤ) (req : TravelRequest)
        (a b c d a' b' c' d' : Hourly) (t : ℤ),
      parseDate req.travelDate = some t → ¬(t < today ∨ today + 15 < t) →
      buildDistrictMap districts req.destinationDistrictName = none →
        getRecommendation districts today req a b c d
          = .error "destination district not found" ∧
        getRecommendation districts today req a b c d
          = getRecommendation districts today req a' b' c' d') := by
  refine ⟨?_, ?_, ?_⟩
  · intro districts today req a b c d a' b' c' d' hp
    have herr : ∀ w x y z : Hourly, getRecommendation districts today req w x y z
        = .error "invalid travel date format, use YYYY-MM-DD" := by
      intro w x y z
      unfold getRecommendation
      rw [hp]
    exact ⟨herr a b c d, (herr a b c d).trans (herr a' b' c' d').symm⟩
  · intro districts today req a b c d a' b' c' d' t hp hr
    have herr : ∀ w x y z : Hourly, getRecommendation districts today req w x y z
        = .error "travel date must be within the next 15 days" := by
      intro w x y z
      unfold getRecommendation
      rw [hp]
      dsimp only
      rw [if_pos hr]
    exact ⟨herr a b c d, (herr a b c d).trans (herr a' b' c' d').symm⟩
  · intro districts today req a b c d a' b' c' d' t hp hr hd
    have herr : ∀ w x y z : Hourly, getRecommendation districts today req w x y z
        = .error "destination district not found" := by
      intro w x y z
      unfold getRecommendation
      rw [hp]
      dsimp only
      rw [if_neg hr, hd]
    exact ⟨herr a b c d, (herr a b c d).trans (herr a' b' c' d').symm⟩

/-- The destination district of the travel-service test. -/
def coxsBazar : District := ⟨"1", "", "Cox's Bazar", "", 22.3569, 91.7832⟩

/-- C8 witness: the three validation failures at concrete inputs — the bad
format "invalid-date", the past date "2020-01-01", and an unknown
destination — each with two different provider-response environments. -/
theorem validation_short_circuits_witness :
    (getRecommendation [coxsBazar] (daysFromCivil 2026 10 11)
        ⟨⟨23.8103, 90.4125, ""⟩, "Cox's Bazar", "invalid-date"⟩
        ⟨[], []⟩ ⟨[], []⟩ ⟨[], []⟩ ⟨[], []⟩
      = .error "invalid travel date format, use YYYY-MM-DD" ∧
     getRecommendation [coxsBazar] (daysFromCivil 2026 10 11)
        ⟨⟨23.8103, 90.4125, ""⟩, "Cox's Bazar", "invalid-date"⟩
        ⟨[], []⟩ ⟨[], []⟩ ⟨[], []⟩ ⟨[], []⟩
      = getRecommendation [coxsBazar] (daysFromCivil 2026 10 11)
        ⟨⟨23.8103, 90.4125, ""⟩, "Cox's Bazar", "invalid-date"⟩
        ⟨["x"], [1]⟩ ⟨["x"], [1]⟩ ⟨["x"], [1]⟩ ⟨["x"], [1]⟩) ∧
    (getRecommendation [coxsBazar] (daysFromCivil 2026 10 11)
        ⟨⟨23.8103, 90.4125, ""⟩, "Cox's Bazar", "2020-01-01"⟩
        ⟨[], []⟩ ⟨[], []⟩ ⟨[], []⟩ ⟨[], []⟩
      = .error "travel date must be within the next 15 days") ∧
    (getRecommendation [coxsBazar] (daysFromCivil 2026 10 11)
        ⟨⟨23.8103, 90.4125, ""⟩, "NonExistent District", "2026-10-12"⟩
        ⟨[], []⟩ ⟨[], []⟩ ⟨[], []⟩ ⟨[], []⟩
      = .error "destination district not found") :=
  ⟨validation_short_circuits.1 _ _ _ _ _ _ _ _ _ _ _ (by decide),
   (validation_short_circuits.2.1 _ _ _ _ _ _ _ ⟨[], []⟩ ⟨[], []⟩ ⟨[], []⟩ ⟨[], []⟩
      (daysFromCivil 2020 1 1) (by decide) (by decide)).1,
   (validation_short_circuits.2.2 [coxsBazar] (daysFromCivil 2026 10 11)
      ⟨⟨23.8103, 90.4125, ""⟩, "NonExistent District", "2026-10-12"⟩
      _ _ _ _ ⟨[], []⟩ ⟨[], []⟩ ⟨[], []⟩ ⟨[], []⟩
      (daysFromCivil 2026 10 12) (by decide) (by decide) (by
        simp [buildDistrictMap, coxsBazar])).1⟩

/-! ### Claim C5: the verdict is equivalent to positive rounded differences

The fetched readings are `round2` outputs (integer numbers of hundredths), so
the raw comparisons `dest < current` used for the verdict agree with
positivity of the rounded differences reported in the result. -/

theorem advisoryReduce_hundredths {t : List String} {v : List ℚ} {q : ℚ}
    (h : advisoryReduce t v = some q) : ∃ m : ℤ, q = (m : ℚ) / 100 := by
  unfold advisoryReduce at h
  cases hf : firstTwoPM t v with
  | none => rw [hf] at h; exact Option.noConfusion h
  | some x =>
    rw [hf] at h
    have h' : round2 x = q := Option.some.inj h
    exact h' ▸ round2_eq_hundredths x

theorem fetchWeatherForDate_hundredths {a b : Hourly} {pr : ℚ × ℚ}
    (h : fetchWeatherForDate a b = some pr) :
    (∃ m : ℤ, pr.1 = (m : ℚ) / 100) ∧ (∃ n : ℤ, pr.2 = (n : ℚ) / 100) := by
  unfold fetchWeatherForDate at h
  cases ht : advisoryReduce a.times a.vals with
  | none => rw [ht] at h; exact Option.noConfusion h
  | some t =>
    rw [ht] at h
    dsimp only at h
    cases hp : advisoryReduce b.times b.vals with
    | none => rw [hp] at h; exact Option.noConfusion h
    | some p =>
      rw [hp] at h
      dsimp only at h
      obtain rfl : (t, p) = pr := Option.some.inj h
      exact ⟨advisoryReduce_hundredths ht, advisoryReduce_hundredths hp⟩

/-- C5: for every successful comparison, the verdict is "Recommended" exactly
when both reported rounded differences are strictly positive (equality on
either axis yields "Not Recommended"). -/
theorem recommendation_verdict_iff
    (districts : List District) (today : ℤ) (req : TravelRequest)
    (curTemp curPM destTemp destPM : Hourly) (rec : TravelRecommendation)
    (h : getRecommendation districts today req curTemp curPM destTemp destPM
          = .ok rec) :
    rec.recommendation = "Recommended" ↔
      0 < rec.tempDifference ∧ 0 < rec.pm25Difference := by
  unfold getRecommendation at h
  cases hp : parseDate req.travelDate with
  | none => rw [hp] at h; exact Except.noConfusion h
  | some t =>
    rw [hp] at h
    dsimp only at h
    by_cases hr : t < today ∨ today + 15 < t
    · rw [if_pos hr] at h; exact Except.noConfusion h
    · rw [if_neg hr] at h
      cases hd : buildDistrictMap districts req.destinationDistrictName with
      | none => rw [hd] at h; exact Except.noConfusion h
      | some dest =>
        rw [hd] at h
        dsimp only at h
        cases hcur : fetchWeatherForDate curTemp curPM with
        | none => rw [hcur] at h; exact Except.noConfusion h
        | some cur =>
          rw [hcur] at h
          dsimp only at h
          cases hdst : fetchWeatherForDate destTemp destPM with
          | none => rw [hdst] at h; exact Except.noConfusion h
          | some dst =>
            rw [hdst] at h
            dsimp only at h
            obtain ⟨m1, hm1⟩ := (fetchWeatherForDate_hundredths hcur).1
            obtain ⟨m2, hm2⟩ := (fetchWeatherForDate_hundredths hcur).2
            obtain ⟨n1, hn1⟩ := (fetchWeatherForDate_hundredths hdst).1
            obtain ⟨n2, hn2⟩ := (fetchWeatherForDate_hundredths hdst).2
            have hrec : rec = _ := (Except.ok.inj h).symm
            subst hrec
            dsimp only
            rw [round2_sub_pos hm1 hn1, round2_sub_pos hm2 hn2]
            by_cases hc : dst.2 < cur.2 ∧ dst.1 < cur.1
            · rw [if_pos hc]
              simp [hc.1, hc.2]
            · rw [if_neg hc]
              constructor
              · intro hbad; exact absurd hbad (by decide)
              · rintro ⟨h1, h2⟩; exact absurd ⟨h2, h1⟩ hc

/-- C5 witness: the test scenario — Dhaka at 35.5 °C / PM2.5 75 versus
Cox's Bazar at 28 °C / PM2.5 25 on a valid travel date — is "Recommended"
with differences 7.5 and 50, and the verdict equivalence holds there. -/
theorem recommendation_verdict_iff_witness :
    getRecommendation [coxsBazar] (daysFromCivil 2026 10 11)
        ⟨⟨23.8103, 90.4125, "Dhaka"⟩, "Cox's Bazar", "2026-10-12"⟩
        ⟨["2026-10-12T14:00"], [35.5]⟩ ⟨["2026-10-12T14:00"], [75]⟩
        ⟨["2026-10-12T14:00"], [28]⟩ ⟨["2026-10-12T14:00"], [25]⟩
      = .ok ⟨"Recommended", "Reason", "2026-10-12", ⟨"Dhaka", 35.5, 75⟩,
              ⟨"Cox's Bazar", 28, 25⟩, 7.5, 50⟩ ∧
    (("Recommended" : String) = "Recommended" ↔
      0 < (7.5 : ℚ) ∧ 0 < (50 : ℚ)) := by
  have h14 : is2PM "2026-10-12T14:00" = true := by decide
  have hcur : fetchWeatherForDate ⟨["2026-10-12T14:00"], [35.5]⟩
      ⟨["2026-10-12T14:00"], [75]⟩ = some (35.5, 75) := by
    simp [fetchWeatherForDate, advisoryReduce, firstTwoPM, h14,
      round2_of_mul_eq (35.5 : ℚ) 3550 (by norm_num),
      round2_of_mul_eq (75 : ℚ) 7500 (by norm_num)]
  have hdst : fetchWeatherForDate ⟨["2026-10-12T14:00"], [28]⟩
      ⟨["2026-10-12T14:00"], [25]⟩ = some (28, 25) := by
    simp [fetchWeatherForDate, advisoryReduce, firstTwoPM, h14,
      round2_of_mul_eq (28 : ℚ) 2800 (by norm_num),
      round2_of_mul_eq (25 : ℚ) 2500 (by norm_num)]
  have heq : getRecommendation [coxsBazar] (daysFromCivil 2026 10 11)
      ⟨⟨23.8103, 90.4125, "Dhaka"⟩, "Cox's Bazar", "2026-10-12"⟩
      ⟨["2026-10-12T14:00"], [35.5]⟩ ⟨["2026-10-12T14:00"], [75]⟩
      ⟨["2026-10-12T14:00"], [28]⟩ ⟨["2026-10-12T14:00"], [25]⟩
      = .ok ⟨"Recommended", "Reason", "2026-10-12", ⟨"Dhaka", 35.5, 75⟩,
              ⟨"Cox's Bazar", 28, 25⟩, 7.5, 50⟩ := by
    have hp : parseDate "2026-10-12" = some (daysFromCivil 2026 10 12) := by decide
    have hr : ¬(daysFromCivil 2026 10 12 < daysFromCivil 2026 10 11 ∨
        daysFromCivil 2026 10 11 + 15 < daysFromCivil 2026 10 12) := by decide
    have hd : buildDistrictMap [coxsBazar] "Cox's Bazar" = some coxsBazar := by
      simp [buildDistrictMap, coxsBazar]
    unfold getRecommendation
    rw [hp]
    dsimp only
    rw [if_neg hr, hd]
    dsimp only
    rw [hcur]
    dsimp only
    rw [hdst]
    dsimp only
    rw [if_pos ⟨(by norm_num : (25 : ℚ) < 75), (by norm_num : (28 : ℚ) < 35.5)⟩]
    rw [show (35.5 : ℚ) - 28 = 7.5 by norm_num, show (75 : ℚ) - 25 = 50 by norm_num,
        round2_of_mul_eq (7.5 : ℚ) 750 (by norm_num),
        round2_of_mul_eq (50 : ℚ) 5000 (by norm_num)]
    rw [if_neg (by decide : ¬("Dhaka" : String) = "")]
    rfl
  exact ⟨heq, recommendation_verdict_iff _ _ _ _ _ _ _ _ heq⟩

/-! ## Claim C7: the reason-string banding

`TravelService.generateReason` is missing from the sources: the travel
service carries the TODO placeholder `reason := "Reason"`, while its test
(TestGenerateReason) calls the function and the README documents the bands.
The function is therefore modelled from the spec and settled against that
model. -/

/-- Modelled from the spec: the temperature clause of the missing
`generateReason` — `|temp_diff| < 1` is "about the same temperature",
`1 ≤ |temp_diff| ≤ 3` "slightly cooler/hotter", `|temp_diff| > 3`
"significantly cooler/hotter", direction word by sign (positive means the
destination is cooler). -/
def tempPhrase (d : ℚ) : String :=
  if |d| < 1 then "about the same temperature"
  else if |d| ≤ 3 then (if 0 < d then "slightly cooler" else "slightly hotter")
  else (if 0 < d then "significantly cooler" else "significantly hotter")

/-- Modelled from the spec: the air-quality clause — `|pm25_diff| < 5`
"similar air quality", `5 ≤ |pm25_diff| ≤ 15` "better/worse air quality",
`|pm25_diff| > 15` "significantly better/worse air quality". -/
def airPhrase (p : ℚ) : String :=
  if |p| < 5 then "similar air quality"
  else if |p| ≤ 15 then (if 0 < p then "better air quality" else "worse air quality")
  else (if 0 < p then "significantly better air quality"
        else "significantly worse air quality")

/-- Modelled from the spec: the missing `TravelService.generateReason` —
the two per-axis clauses composed into one sentence naming the destination,
with the README's closing encouragement on recommended trips. -/
def generateReason (isCooler isCleaner : Bool) (tempDiff pm25Diff : ℚ)
    (destName : String) : String :=
  destName ++ " is " ++ tempPhrase tempDiff ++ " and has " ++ airPhrase pm25Diff
    ++ (if isCooler && isCleaner then ". Enjoy your trip!" else ".")

theorem isInfix_embed {α : Type} {x m : List α} (l r : List α) (h : x <:+: m) :
    x <:+: l ++ m ++ r := by
  obtain ⟨s, t, rfl⟩ := h
  exact ⟨l ++ s, t ++ r, by simp⟩

/-- Both per-axis phrases occur inside the composed reason, as does the
destination name. -/
theorem generateReason_contains (c k : Bool) (d p : ℚ) (name : String) :
    (tempPhrase d).data <:+: (generateReason c k d p name).data ∧
    (airPhrase p).data <:+: (generateReason c k d p name).data ∧
    name.data <:+: (generateReason c k d p name).data := by
  unfold generateReason
  simp only [String.data_append]
  refine ⟨?_, ?_, ?_⟩
  · exact ⟨name.data ++ " is ".data,
      " and has ".data ++ (airPhrase p).data
        ++ (if c && k then ". Enjoy your trip!" else ".").data, by simp⟩
  · exact ⟨name.data ++ " is ".data ++ (tempPhrase d).data
        ++ " and has ".data,
      (if c && k then ". Enjoy your trip!" else ".").data, by simp⟩
  · exact ⟨[], " is ".data ++ (tempPhrase d).data ++ " and has ".data
        ++ (airPhrase p).data
        ++ (if c && k then ". Enjoy your trip!" else ".").data, by simp⟩

/-- C7: the reason text classifies each axis by the contractual thresholds
(temperature bands at 1 and 3, PM2.5 bands at 5 and 15, direction by sign),
and on the test rows — temp_diff 5.5 with pm25_diff 20, temp_diff −4 with
pm25_diff −18 — the composed reason mentions the destination together with
"cooler"/"better air quality" resp. "hotter"/"worse air quality". -/
theorem generateReason_banding :
    (∀ d : ℚ,
      (|d| < 1 → tempPhrase d = "about the same temperature") ∧
      (1 ≤ |d| → |d| ≤ 3 → 0 < d → tempPhrase d = "slightly cooler") ∧
      (1 ≤ |d| → |d| ≤ 3 → d ≤ 0 → tempPhrase d = "slightly hotter") ∧
      (3 < |d| → 0 < d → tempPhrase d = "significantly cooler") ∧
      (3 < |d| → d ≤ 0 → tempPhrase d = "significantly hotter")) ∧
    (∀ p : ℚ,
      (|p| < 5 → airPhrase p = "similar air quality") ∧
      (5 ≤ |p| → |p| ≤ 15 → 0 < p → airPhrase p = "better air quality") ∧
      (5 ≤ |p| → |p| ≤ 15 → p ≤ 0 → airPhrase p = "worse air quality") ∧
      (15 < |p| → 0 < p → airPhrase p = "significantly better air quality") ∧
      (15 < |p| → p ≤ 0 → airPhrase p = "significantly worse air quality")) ∧
    (∀ (c k : Bool) (name : String),
      "cooler".data <:+: (generateReason c k 5.5 20 name).data ∧
      "better air quality".data <:+: (generateReason c k 5.5 20 name).data ∧
      name.data <:+: (generateReason c k 5.5 20 name).data) ∧
    (∀ (c k : Bool) (name : String),
      "hotter".data <:+: (generateReason c k (-4) (-18) name).data ∧
      "worse air quality".data <:+: (generateReason c k (-4) (-18) name).data ∧
      name.data <:+: (generateReason c k (-4) (-18) name).data) := by
  have htemp : ∀ d : ℚ,
      (|d| < 1 → tempPhrase d = "about the same temperature") ∧
      (1 ≤ |d| → |d| ≤ 3 → 0 < d → tempPhrase d = "slightly cooler") ∧
      (1 ≤ |d| → |d| ≤ 3 → d ≤ 0 → tempPhrase d = "slightly hotter") ∧
      (3 < |d| → 0 < d → tempPhrase d = "significantly cooler") ∧
      (3 < |d| → d ≤ 0 → tempPhrase d = "significantly hotter") := by
    intro d
    unfold tempPhrase
    refine ⟨?_, ?_, ?_, ?_, ?_⟩ <;> intro h1 <;>
      first
      | (split_ifs <;> first | rfl | linarith)
      | (intro h2 h3; split_ifs <;> first | rfl | linarith)
      | (intro h2; split_ifs <;> first | rfl | linarith)
  have hair : ∀ p : ℚ,
      (|p| < 5 → airPhrase p = "similar air quality") ∧
      (5 ≤ |p| → |p| ≤ 15 → 0 < p → airPhrase p = "better air quality") ∧
      (5 ≤ |p| → |p| ≤ 15 → p ≤ 0 → airPhrase p = "worse air quality") ∧
      (15 < |p| → 0 < p → airPhrase p = "significantly better air quality") ∧
      (15 < |p| → p ≤ 0 → airPhrase p = "significantly worse air quality") := by
    intro p
    unfold airPhrase
    refine ⟨?_, ?_, ?_, ?_, ?_⟩ <;> intro h1 <;>
      first
      | (split_ifs <;> first | rfl | linarith)
      | (intro h2 h3; split_ifs <;> first | rfl | linarith)
      | (intro h2; split_ifs <;> first | rfl | linarith)
  have habs1 : |(5.5 : ℚ)| = 5.5 := by rw [abs_of_pos]; norm_num
  have habs2 : |(20 : ℚ)| = 20 := by rw [abs_of_pos]; norm_num
  have habs3 : |(-4 : ℚ)| = 4 := by rw [abs_of_neg] <;> norm_num
  have habs4 : |(-18 : ℚ)| = 18 := by rw [abs_of_neg] <;> norm_num
  have ht1 : tempPhrase 5.5 = "significantly cooler" :=
    (htemp 5.5).2.2.2.1 (by rw [habs1]; norm_num) (by norm_num)
  have ha1 : airPhrase 20 = "significantly better air quality" :=
    (hair 20).2.2.2.1 (by rw [habs2]; norm_num) (by norm_num)
  have ht2 : tempPhrase (-4) = "significantly hotter" :=
    (htemp (-4)).2.2.2.2 (by rw [habs3]; norm_num) (by norm_num)
  have ha2 : airPhrase (-18) = "significantly worse air quality" :=
    (hair (-18)).2.2.2.2 (by rw [habs4]; norm_num) (by norm_num)
  refine ⟨htemp, hair, ?_, ?_⟩
  · intro c k name
    obtain ⟨hc1, hc2, hc3⟩ := generateReason_contains c k 5.5 20 name
    rw [ht1] at hc1
    rw [ha1] at hc2
    exact ⟨List.IsInfix.trans (by decide) hc1, List.IsInfix.trans (by decide) hc2, hc3⟩
  · intro c k name
    obtain ⟨hc1, hc2, hc3⟩ := generateReason_contains c k (-4) (-18) name
    rw [ht2] at hc1
    rw [ha2] at hc2
    exact ⟨List.IsInfix.trans (by decide) hc1, List.IsInfix.trans (by decide) hc2, hc3⟩

/-- C7 witness: the banding theorem applied at the two test rows with the
test's destination names. -/
theorem generateReason_banding_witness :
    tempPhrase 5.5 = "significantly cooler" ∧
    airPhrase 20 = "significantly better air quality" ∧
    ("cooler".data <:+: (generateReason true true 5.5 20 "Cox's Bazar").data ∧
     "better air quality".data
        <:+: (generateReason true true 5.5 20 "Cox's Bazar").data ∧
     "Cox's Bazar".data <:+: (generateReason true true 5.5 20 "Cox's Bazar").data) ∧
    ("hotter".data <:+: (generateReason false false (-4) (-18) "Dhaka").data ∧
     "worse air quality".data
        <:+: (generateReason false false (-4) (-18) "Dhaka").data ∧
     "Dhaka".data <:+: (generateReason false false (-4) (-18) "Dhaka").data) :=
  ⟨(generateReason_banding.1 5.5).2.2.2.1
      (by rw [abs_of_pos] <;> norm_num) (by norm_num),
   (generateReason_banding.2.1 20).2.2.2.1
      (by rw [abs_of_pos] <;> norm_num) (by norm_num),
   generateReason_banding.2.2.1 true true "Cox's Bazar",
   generateReason_banding.2.2.2 false false "Dhaka"⟩

end Recommender
